import Mathlib

/-!
Verification of the `tail` session coordinator of `wrangler`
(`src/tail/mod.rs`): `Tail::run` wires three one-shot cancellation
channels, spawns an interrupt listener and three collaborator tasks
(log server, tunnel, session registrar), and joins them with
`tokio::try_join!`.  The collaborator bodies (`log_server.rs`,
`session.rs`, `tunnel.rs`) are not part of the examined slice; they are
modelled from the spec as opaque units that either complete with a
`Result` or run forever.

The embedding is a pure trace semantics: a `RunEnv` fixes the outcome of
every external event (tunnel acquisition, the ctrl-c subscription, each
collaborator's own termination behaviour), and `Tail.runTrace` computes
what the coordinator does under that environment: which tasks it spawns,
which it awaits, which send attempts the listener makes on the one-shot
senders, what it hands to `Session::run`, and the value and time of its
return.
-/

namespace WranglerTail

/-- Identity of the three one-shot cancellation channels created at
`mod.rs` lines 39-41 (`log`, `session`, `tunnel`). -/
inductive ChanId where
  | log
  | session
  | tunnel
deriving DecidableEq, Repr

/-- Identity of the four tasks `Tail::run` spawns: the sigint listener
(line 45), the log server (line 48), the tunnel (line 52) and the
session registrar (line 55). -/
inductive TaskId where
  | listener
  | logServer
  | tunnelTask
  | sessionTask
deriving DecidableEq, Repr

/-- Modelled from the spec: the observable end of one collaborator task
(`IngestionServer.run`, `TunnelManager.run`, `SessionRegistrar.run`,
whose source files `log_server.rs`, `tunnel.rs`, `session.rs` are not in
the examined slice).  Per the collaborator contract each unit "runs
until told to stop via its CancellationSignal consumer or until it fails
on its own" and "returns a `Result<(), Error>` on completion": it either
completes at some time with a `Result`, or never completes (a
collaborator that never observes cancellation is not forcibly stopped). -/
inductive UnitEnd (ε : Type) where
  | completes (t : Nat) (r : Except ε Unit)
  | diverges
deriving Repr

/-- The behaviour of the process-wide interrupt subscription
(`tokio::signal::ctrl_c()`): the subscription itself may fail with an
error at some time, or the first interrupt arrives at time `t` (with
`extra` further deliveries after it), or no interrupt ever arrives. -/
inductive InterruptEnv (ε : Type) where
  | subFails (t : Nat) (e : ε)
  | fires (t : Nat) (extra : Nat)
  | never
deriving Repr

/-- `listen_for_sigint` (`mod.rs` lines 69-79), as the pair of its own
`UnitEnd` and the list of one-shot send attempts it makes, in order.
`tokio::signal::ctrl_c().await?` propagates a subscription error before
any send; on the first interrupt the function iterates over `txs` and
calls `tx.send(()).ok()` on each — every sender is consumed by its single
send attempt, a failed send is discarded — and then returns `Ok(())`.
The function body awaits the subscription only once, so deliveries after
the first (`extra`) are never observed by it. -/
def listen_for_sigint (txs : List ChanId) :
    InterruptEnv ε → UnitEnd ε × List ChanId
  | .subFails t e => (.completes t (.error e), [])
  | .fires t _ => (.completes t (.ok ()), txs)
  | .never => (.diverges, [])

/-- What a collaborator's one-shot consumer ends up observing, given the
send attempts made during the session: a notification, or "producer
gone" (the sender was dropped without sending, which the consumer treats
the same as "no notification yet"). -/
inductive ConsumerObs where
  | notified
  | producerGone
deriving DecidableEq, Repr

/-- The observation at consumer `c` given the session's send attempts. -/
def consumerObs (attempts : List ChanId) (c : ChanId) : ConsumerObs :=
  if c ∈ attempts then .notified else .producerGone

/-- The notifications actually delivered: a send attempt succeeds exactly
when the paired consumer is still alive; a failed attempt is ignored. -/
def delivered (alive : ChanId → Bool) (attempts : List ChanId) : List ChanId :=
  attempts.filter alive

/-- The three channels in creation order (`mod.rs` lines 39-41). -/
def createdChans : List ChanId := [.log, .session, .tunnel]

/-- The transmitter vector handed to the spawned listener:
`vec![log_tx, tunnel_tx, session_tx]` (`mod.rs` line 44). -/
def tailTxs : List ChanId := [.log, .tunnel, .session]

/-- Which collaborator task each consumer end is wired to: `log_rx` to
the log server (line 48), `tunnel_rx` to the tunnel task (line 52),
`session_rx` to the session task (line 55). -/
def consumerFor : ChanId → TaskId
  | .log => .logServer
  | .tunnel => .tunnelTask
  | .session => .sessionTask

/-- The environment one invocation of `Tail::run` executes against:
the result of the synchronous `Tunnel::new()` acquisition (its handle is
opaque), the interrupt subscription's behaviour, and the termination
behaviour of the three opaque collaborator tasks. -/
structure RunEnv (ε : Type) where
  tunnelNew : Except ε Unit
  interrupt : InterruptEnv ε
  logEnd : UnitEnd ε
  tunnelEnd : UnitEnd ε
  sessionEnd : UnitEnd ε
deriving Repr

/-- How one invocation of `Tail::run` ends: it returns a `Result` at
some time, or never returns (e.g. `try_join!` waiting on a unit that
never completes). -/
inductive RunResult (ε : Type) where
  | returns (t : Nat) (r : Except ε Unit)
  | hangs
deriving Repr

/-- `tokio::try_join!(listener, log_server, session, tunnel)` (`mod.rs`
line 57) followed by the match at lines 59-62.  Each joined future is a
`JoinHandle` whose output is `Result<TaskOutput, JoinError>`; under the
spec's collaborator contract no task panics, so every handle resolves
`Ok` when its task completes, `try_join!` resolves once all four have
completed, and the `Err(e) => bail!(e)` arm (a join-level error) is
unreachable.  The `Ok(_) => Ok(())` arm binds the tuple of the four
tasks' own `Result`s with `_` and discards it, so the per-unit results
`r` never influence the returned value. -/
def tryJoinAll (listener logServer session tunnel : UnitEnd ε) : RunResult ε :=
  match listener, logServer, session, tunnel with
  | .completes t1 _, .completes t2 _, .completes t3 _, .completes t4 _ =>
      .returns (max (max t1 t2) (max t3 t4)) (.ok ())
  | _, _, _, _ => .hangs

/-- The observable trace of one invocation of `Tail::run`. -/
structure RunTrace (ε α β : Type) where
  /-- the value `run` returns, and when. -/
  result : RunResult ε
  /-- tasks spawned, in program order. -/
  spawned : List TaskId
  /-- tasks whose completion `run` waits for before returning. -/
  awaited : List TaskId
  /-- the one-shot channels created. -/
  created : List ChanId
  /-- the producer ends handed to the spawned listener. -/
  txsGiven : List ChanId
  /-- consumer ends handed out, paired with the receiving task. -/
  rxGiven : List (ChanId × TaskId)
  /-- one-shot send attempts made during the session (all by the listener). -/
  sendAttempts : List ChanId
  /-- the `(target, user)` pair passed to `Session::run`, if it is spawned. -/
  sessionArgs : Option (α × β)
deriving Repr

/-- `Tail::run(target, user)` (`mod.rs` lines 31-64) under environment
`env`.  Lines 39-44 create the three channels and hand the three
transmitters to the listener; line 45 spawns the listener and line 48
the log server.  Line 51, `let tunnel_process = Tunnel::new()?;`, is the
first fallible step: on acquisition failure the `?` returns the error
from the async block at once — nothing has been awaited yet, the tunnel
and session tasks are never spawned, and the already-spawned listener
and log server are neither signalled nor joined.  On success lines 52
and 55 spawn the tunnel and session tasks (the latter taking `target`
and `user` unchanged) and line 57 joins all four.  The listener keeps
running either way, so the session's send attempts are its attempts in
both branches. -/
def Tail.runTrace (env : RunEnv ε) (target : α) (user : β) : RunTrace ε α β :=
  match env.tunnelNew with
  | .error e =>
      { result := .returns 0 (.error e)
        spawned := [.listener, .logServer]
        awaited := []
        created := createdChans
        txsGiven := tailTxs
        rxGiven := [(.log, .logServer)]
        sendAttempts := (listen_for_sigint tailTxs env.interrupt).2
        sessionArgs := none }
  | .ok () =>
      { result := tryJoinAll (listen_for_sigint tailTxs env.interrupt).1
          env.logEnd env.sessionEnd env.tunnelEnd
        spawned := [.listener, .logServer, .tunnelTask, .sessionTask]
        awaited := [.listener, .logServer, .sessionTask, .tunnelTask]
        created := createdChans
        txsGiven := tailTxs
        rxGiven := [(.log, .logServer), (.tunnel, .tunnelTask), (.session, .sessionTask)]
        sendAttempts := (listen_for_sigint tailTxs env.interrupt).2
        sessionArgs := some (target, user) }

/-- The `UnitEnd` of each task `Tail::run` spawns, under `env`: the
listener's end follows from `listen_for_sigint`, the collaborators' ends
are the environment's. -/
def taskEnd (env : RunEnv ε) : TaskId → UnitEnd ε
  | .listener => (listen_for_sigint tailTxs env.interrupt).1
  | .logServer => env.logEnd
  | .tunnelTask => env.tunnelEnd
  | .sessionTask => env.sessionEnd

/-- A unit has completed by time `T` (a diverging unit never has). -/
def endedBy (u : UnitEnd ε) (T : Nat) : Prop :=
  match u with
  | .completes t _ => t ≤ T
  | .diverges => False

/-- A concrete session: acquisition succeeds, the interrupt fires at
time 1, the log unit completes at 2 and the tunnel unit at 3, both
successfully, while the session unit completes at time 2 with its own
error `7`. -/
def sessionFailsEnv : RunEnv Nat :=
  { tunnelNew := .ok ()
    interrupt := .fires 1 0
    logEnd := .completes 2 (.ok ())
    tunnelEnd := .completes 3 (.ok ())
    sessionEnd := .completes 2 (.error 7) }

/-- A concrete session in which every unit completes successfully: the
interrupt fires at time 5 and the units complete at times 2, 7 and 6. -/
def joinedEnv : RunEnv Nat :=
  { tunnelNew := .ok ()
    interrupt := .fires 5 0
    logEnd := .completes 2 (.ok ())
    tunnelEnd := .completes 7 (.ok ())
    sessionEnd := .completes 6 (.ok ())}

/-- A concrete session in which `Tunnel::new()` fails with error `3`
and no interrupt ever arrives. -/
def acqFailEnv : RunEnv Nat :=
  { tunnelNew := .error 3
    interrupt := .never
    logEnd := .diverges
    tunnelEnd := .diverges
    sessionEnd := .diverges }

/-- If `try_join!` resolves with a value at time `T`, every one of the
four joined units has completed by `T`. -/
theorem tryJoinAll_returns {a b c d : UnitEnd ε} {T : Nat} {r : Except ε Unit}
    (h : tryJoinAll a b c d = .returns T r) :
    endedBy a T ∧ endedBy b T ∧ endedBy c T ∧ endedBy d T := by
  rcases a with ⟨t1, r1⟩ | _ <;> rcases b with ⟨t2, r2⟩ | _ <;>
    rcases c with ⟨t3, r3⟩ | _ <;> rcases d with ⟨t4, r4⟩ | _ <;>
    simp only [tryJoinAll, RunResult.returns.injEq, reduceCtorEq] at h
  obtain ⟨hT, hr⟩ := h
  subst hT
  refine ⟨?_, ?_, ?_, ?_⟩ <;> simp [endedBy]

/-- Claim C1: the claim says `run` returns `Ok(())` only if every
completed unit succeeded, the first unit error otherwise.  The code does
not: in `sessionFailsEnv` all four units run to completion and the
session unit fails with error `7`, yet `run` returns `Ok(())` (at time
3, when the last unit completes), because the `Ok(_) => Ok(())` arm of
the match on `try_join!`'s result discards the tuple of per-task
`Result`s — `try_join!`'s own `Err` is a join-level `JoinError`, not a
unit's error. -/
theorem run_discards_unit_error :
    (Tail.runTrace sessionFailsEnv () ()).result = .returns 3 (.ok ()) := rfl

/-- Claim C2: when `Tunnel::new()` fails with `e`, `run` returns
`Err(e)` immediately (at time 0, having awaited nothing); the tunnel and
session tasks are never spawned; only the listener and the log server
were spawned; no task is waited on; and the session's one-shot send
attempts are exactly the background listener's, which depend only on the
interrupt environment — the failure path itself signals nothing. -/
theorem run_acquisition_failure (env : RunEnv ε) (target : α) (user : β) (e : ε)
    (h : env.tunnelNew = .error e) :
    (Tail.runTrace env target user).result = .returns 0 (.error e) ∧
    (Tail.runTrace env target user).spawned = [.listener, .logServer] ∧
    TaskId.tunnelTask ∉ (Tail.runTrace env target user).spawned ∧
    TaskId.sessionTask ∉ (Tail.runTrace env target user).spawned ∧
    (Tail.runTrace env target user).awaited = [] ∧
    (Tail.runTrace env target user).sendAttempts
      = (listen_for_sigint tailTxs env.interrupt).2 := by
  obtain ⟨tn, intr, lE, tE, sE⟩ := env
  obtain rfl : tn = .error e := h
  refine ⟨rfl, rfl, ?_, ?_, rfl, rfl⟩
  · show TaskId.tunnelTask ∉ [TaskId.listener, TaskId.logServer]
    decide
  · show TaskId.sessionTask ∉ [TaskId.listener, TaskId.logServer]
    decide

/-- Claim C2, witness: the theorem applied to `acqFailEnv`. -/
theorem run_acquisition_failure_witness :
    (Tail.runTrace acqFailEnv () ()).result = .returns 0 (.error 3) ∧
    (Tail.runTrace acqFailEnv () ()).spawned = [.listener, .logServer] ∧
    TaskId.tunnelTask ∉ (Tail.runTrace acqFailEnv () ()).spawned ∧
    TaskId.sessionTask ∉ (Tail.runTrace acqFailEnv () ()).spawned ∧
    (Tail.runTrace acqFailEnv () ()).awaited = [] ∧
    (Tail.runTrace acqFailEnv () ()).sendAttempts
      = (listen_for_sigint tailTxs acqFailEnv.interrupt).2 :=
  run_acquisition_failure acqFailEnv () () 3 rfl

/-- Claim C3: when acquisition succeeds and `run` returns at time `T`,
every spawned task — listener, log server, tunnel, session — has
completed by `T`: `run` never returns while one of the four is still
running.  (`try_join!` over the four handles resolves only once all
four units have completed, since under the collaborator contract a
handle resolves exactly when its task completes.) -/
theorem run_joins_all (env : RunEnv ε) (target : α) (user : β)
    (T : Nat) (r : Except ε Unit) (tid : TaskId)
    (hacq : env.tunnelNew = .ok ())
    (hret : (Tail.runTrace env target user).result = .returns T r)
    (hmem : tid ∈ (Tail.runTrace env target user).spawned) :
    endedBy (taskEnd env tid) T := by
  obtain ⟨tn, intr, lE, tE, sE⟩ := env
  obtain rfl : tn = .ok () := hacq
  have h : tryJoinAll (listen_for_sigint tailTxs intr).1 lE sE tE
      = .returns T r := hret
  obtain ⟨h1, h2, h3, h4⟩ := tryJoinAll_returns h
  cases tid with
  | listener => exact h1
  | logServer => exact h2
  | tunnelTask => exact h4
  | sessionTask => exact h3

/-- Claim C3, witness: in `joinedEnv` the run returns at time 7 and each
of the four spawned tasks has completed by then (shown at the tunnel
task, the last to complete). -/
theorem run_joins_all_witness :
    (Tail.runTrace joinedEnv () ()).result = .returns 7 (.ok ()) ∧
    endedBy (taskEnd joinedEnv TaskId.tunnelTask) 7 :=
  ⟨rfl, run_joins_all joinedEnv () () 7 (.ok ()) TaskId.tunnelTask rfl rfl (by decide)⟩

/-- Claim C4: in any session — whatever the interrupt environment, the
acquisition outcome and the collaborator behaviours — each cancellation
channel carries at most one send attempt, so each consumer receives at
most one notification: the only sends in the program are the listener's,
one per one-shot sender it holds, and it holds each sender once. -/
theorem session_notifies_at_most_once (env : RunEnv ε) (target : α) (user : β)
    (c : ChanId) :
    ((Tail.runTrace env target user).sendAttempts).count c ≤ 1 := by
  obtain ⟨tn, intr, lE, tE, sE⟩ := env
  have hsend : (Tail.runTrace (RunEnv.mk tn intr lE tE sE) target user).sendAttempts
      = (listen_for_sigint tailTxs intr).2 := by
    rcases tn with e | u
    · rfl
    · cases u; rfl
  rw [hsend]
  rcases intr with ⟨t, e⟩ | ⟨t, n⟩ | _
  · simp [listen_for_sigint]
  · cases c
    · show List.count ChanId.log tailTxs ≤ 1
      decide
    · show List.count ChanId.session tailTxs ≤ 1
      decide
    · show List.count ChanId.tunnel tailTxs ≤ 1
      decide
  · simp [listen_for_sigint]

/-- Claim C5: on receipt of the interrupt, `listen_for_sigint` attempts
exactly one send on every producer it holds (its attempt list is exactly
`txs`), returns `Ok(())` whatever the aliveness of the paired consumers
(a failed send is silently discarded by `.ok()`), and the notifications
delivered are exactly the attempts whose consumer is still alive. -/
theorem sigint_fanout_all (txs : List ChanId) (t n : Nat) (alive : ChanId → Bool) :
    (listen_for_sigint (ε := ε) txs (.fires t n)).2 = txs ∧
    (listen_for_sigint (ε := ε) txs (.fires t n)).1 = .completes t (.ok ()) ∧
    delivered alive (listen_for_sigint (ε := ε) txs (.fires t n)).2
      = txs.filter alive :=
  ⟨rfl, rfl, rfl⟩

/-- Claim C6: the listener fires at most once per session: its entire
behaviour with `n` extra interrupt deliveries after the first equals its
behaviour with none (it has consumed its senders and returned after the
first), no consumer's channel sees more than one send attempt, and the
listener is terminal — it completes at the time of the first delivery
with `Ok(())`. -/
theorem sigint_single_shot (t n : Nat) (c : ChanId) :
    listen_for_sigint (ε := ε) tailTxs (.fires t n)
      = listen_for_sigint (ε := ε) tailTxs (.fires t 0) ∧
    ((listen_for_sigint (ε := ε) tailTxs (.fires t n)).2).count c ≤ 1 ∧
    (listen_for_sigint (ε := ε) tailTxs (.fires t n)).1
      = .completes t (.ok ()) := by
  refine ⟨rfl, ?_, rfl⟩
  cases c
  · show List.count ChanId.log tailTxs ≤ 1
    decide
  · show List.count ChanId.session tailTxs ≤ 1
    decide
  · show List.count ChanId.tunnel tailTxs ≤ 1
    decide

/-- Claim C7: every invocation of `Tail::run` creates exactly the three
one-shot pairs, one per collaborator (the list of created channels has
no duplicate, has length three and covers every channel); the producers
handed to the listener are exactly those three; exactly one listener is
spawned; and the consumer ends go to pairwise distinct collaborators —
`log_rx` to the log server, `tunnel_rx` to the tunnel task, `session_rx`
to the session task — every consumer handed out going to its wired task. -/
theorem run_channel_wiring (env : RunEnv ε) (target : α) (user : β) :
    (Tail.runTrace env target user).created = createdChans ∧
    createdChans.Nodup ∧
    createdChans.length = 3 ∧
    (∀ c : ChanId, c ∈ createdChans) ∧
    (Tail.runTrace env target user).txsGiven = tailTxs ∧
    tailTxs.Perm createdChans ∧
    ((Tail.runTrace env target user).spawned).count .listener = 1 ∧
    Function.Injective consumerFor ∧
    consumerFor .log = .logServer ∧
    consumerFor .tunnel = .tunnelTask ∧
    consumerFor .session = .sessionTask ∧
    ∀ p ∈ (Tail.runTrace env target user).rxGiven, p.2 = consumerFor p.1 := by
  obtain ⟨tn, intr, lE, tE, sE⟩ := env
  have hinj : Function.Injective consumerFor := by
    intro a b hab
    cases a <;> cases b <;> first | rfl | cases hab
  have hcov : ∀ c : ChanId, c ∈ createdChans := by
    intro c
    cases c <;> decide
  rcases tn with e | u
  · refine ⟨rfl, by decide, by decide, hcov, rfl, by decide, ?_, hinj,
      rfl, rfl, rfl, ?_⟩
    · show List.count TaskId.listener [TaskId.listener, TaskId.logServer] = 1
      decide
    · show ∀ p ∈ [((ChanId.log : ChanId), (TaskId.logServer : TaskId))],
        p.2 = consumerFor p.1
      decide
  · cases u
    refine ⟨rfl, by decide, by decide, hcov, rfl, by decide, ?_, hinj,
      rfl, rfl, rfl, ?_⟩
    · show List.count TaskId.listener
        [TaskId.listener, TaskId.logServer, TaskId.tunnelTask, TaskId.sessionTask] = 1
      decide
    · show ∀ p ∈ [((ChanId.log : ChanId), (TaskId.logServer : TaskId)),
        (ChanId.tunnel, TaskId.tunnelTask), (ChanId.session, TaskId.sessionTask)],
        p.2 = consumerFor p.1
      decide

/-- Claim C8: the `target` and `user` arguments of `Tail::run` reach
`Session::run` unmodified whenever the session task is spawned; the
theorem is uniform in the (arbitrary) types of both values, so the
coordinator can neither inspect nor transform them. -/
theorem run_passes_args_unmodified (env : RunEnv ε) (target : α) (user : β)
    (h : env.tunnelNew = .ok ()) :
    (Tail.runTrace env target user).sessionArgs = some (target, user) := by
  obtain ⟨tn, intr, lE, tE, sE⟩ := env
  obtain rfl : tn = .ok () := h
  rfl

/-- Claim C8, witness: the theorem applied to `joinedEnv` at `11`, `22`. -/
theorem run_passes_args_unmodified_witness :
    (Tail.runTrace joinedEnv 11 22).sessionArgs = some (11, 22) :=
  run_passes_args_unmodified joinedEnv 11 22 rfl

/-- Claim C9: the fan-out order is fixed: on any interrupt the listener
attempts its sends in exactly the order log, tunnel, session — the order
of `vec![log_tx, tunnel_tx, session_tx]`. -/
theorem sigint_fanout_order (t n : Nat) :
    (listen_for_sigint (ε := ε) tailTxs (.fires t n)).2
      = [ChanId.log, ChanId.tunnel, ChanId.session] := rfl

/-- Claim C10: if the ctrl-c subscription itself fails with `e`, the
listener returns `Err(e)` (at the failure time) having attempted no
send, and every consumer therefore observes "producer gone" rather than
a notification. -/
theorem sigint_subscription_failure (txs : List ChanId) (t : Nat) (e : ε)
    (c : ChanId) :
    listen_for_sigint txs (.subFails t e) = (.completes t (.error e), []) ∧
    consumerObs (listen_for_sigint txs (.subFails t e)).2 c = .producerGone :=
  ⟨rfl, rfl⟩

end WranglerTail
